import Mathlib

/-!
# Chekhov — verification of the staged narrative-design pipeline

Shallow embedding of the repository's core data flow:

* `Json` models the Python dict/list/scalar values that every artifact is
  made of (`json.loads` output).
* The Generation Client (`client.responses.create` + `json.loads`) is an
  external collaborator; each pipeline is parameterised by an oracle record
  holding the client's responses for that pipeline's calls.
* `WorldviewGenerator.run`, `CharacterGenerator.run`, `ConflictGenerator.run`
  mirror the Draft-Review-Revise-Validate data flow of
  `worldview_generator.py`, `character_generator.py`, `conflict_generator.py`.
* `Orchestrator.mainRun` mirrors the stage sequencing of `main.py`
  (skip-if-artifact-exists, write-after-run) and
  `pipelines/chapter_bootstrap.py` (write-each-step; note that its agent
  constructions pass a `seed` keyword that `LLMBase.__init__` does not
  accept, so every chapter run raises `TypeError` before its first step).
* `DirectorAgent` / `LoreAssistant` mirror the chapter agents in
  `agents/director_agent.py` and `agents/lore_assistant.py`.
* `LLMBase.callStructuredJson` mirrors the audit-logging wrapper in
  `llm_base.py` / `request_logger.py`.
-/

/-- JSON values as produced by `json.loads`: the value space of every
artifact in the pipeline.  Objects keep field order (Python dicts preserve
insertion order). -/
inductive Json where
  | null
  | bool (b : Bool)
  | num (n : Int)
  | str (s : String)
  | arr (xs : List Json)
  | obj (fields : List (String × Json))
deriving Repr

namespace Json

/-- First binding of `key` in an object's field list (Python dicts have
unique keys, so first = only). -/
def lookup : List (String × Json) → String → Option Json
  | [], _ => none
  | (k, v) :: rest, key => if k = key then some v else lookup rest key

/-- Python `d.get(key, default)` on a value known to be a dict. -/
def getD (fields : List (String × Json)) (key : String) (default : Json) : Json :=
  (lookup fields key).getD default

/-- Python `payload.get(key, default)` on an arbitrary value: `none` models
the `AttributeError` raised when `payload` is not a dict. -/
def pyGet (j : Json) (key : String) (default : Json) : Option Json :=
  match j with
  | .obj fields => some (getD fields key default)
  | _ => none

/-- Python `{**fields, key: v}`: replace the binding in place if the key is
present, else append it (dict insertion-order semantics). -/
def setKey (fields : List (String × Json)) (key : String) (v : Json) : List (String × Json) :=
  if fields.any (fun p => p.1 = key) then
    fields.map (fun p => if p.1 = key then (key, v) else p)
  else
    fields ++ [(key, v)]

/-- Python truthiness of a JSON value (`None`, `False`, `0`, `""`, `[]`,
`{}` are falsy). -/
def pyTruthy : Json → Bool
  | .null => false
  | .bool b => b
  | .num n => n != 0
  | .str s => s != ""
  | .arr [] => false
  | .arr (_ :: _) => true
  | .obj [] => false
  | .obj (_ :: _) => true

/-- Python `a or b` on JSON values. -/
def pyOr (a b : Json) : Json := if pyTruthy a then a else b

mutual

/-- `json.dumps(..., ensure_ascii=False)`-style serialisation, used where the
source embeds an artifact into a prompt.  Whitespace differs from Python's
`indent=2` output; no claim depends on the exact rendering, only on which
value is embedded. -/
def dumps : Json → String
  | .null => "null"
  | .bool b => cond b "true" "false"
  | .num n => toString n
  | .str s => "\"" ++ s ++ "\""
  | .arr xs => "[" ++ dumpsList xs ++ "]"
  | .obj fs => "\x7b" ++ dumpsFields fs ++ "\x7d"

def dumpsList : List Json → String
  | [] => ""
  | [x] => dumps x
  | x :: xs => dumps x ++ ", " ++ dumpsList xs

def dumpsFields : List (String × Json) → String
  | [] => ""
  | [(k, v)] => "\"" ++ k ++ "\": " ++ dumps v
  | (k, v) :: xs => "\"" ++ k ++ "\": " ++ dumps v ++ ", " ++ dumpsFields xs

end

end Json

/-- Python `s or ""` for the summary strings (`prev_summary or ""`). -/
def pyOrStr (s t : String) : String := if s = "" then t else s

/-! ## Generation Client calls

Each `client.responses.create` call site is summarised by the static request
parameters that the source fixes at that site: the model name (symbolic,
since the concrete name comes from `.env`), the `name` of the JSON schema
passed in `text.format`, and the sampling temperature. -/

/-- One Generation Client call as issued by a pipeline step. -/
structure LLMCall where
  model : String
  schemaName : String
  temperature : ℚ
deriving DecidableEq, Repr

/-! ## WorldviewGenerator (`worldview_generator.py`) -/

namespace WorldviewGenerator

/-- Responses of the Generation Client for one `WorldviewGenerator.run`:
the `save_meta` echo call, the Expansion draft, the review (an object, per
the `WorldviewReview` schema), and the `assemble_final` check call (a
function of the JSON submitted to it). -/
structure Oracle where
  metaCheckResp : Json
  draftResp : Json
  reviewResp : List (String × Json)
  finalCheckResp : Json → Json

/-- `final_expansion = review.get("revised_expansion", draft_expansion)`. -/
def selectedExpansion (o : Oracle) : Json :=
  Json.getD o.reviewResp "revised_expansion" o.draftResp

/-- Result dict of `WorldviewGenerator.run` (the fields the claims use),
plus the output of the discarded `assemble_final` schema-check call. -/
structure RunResult where
  draftExpansion : Json
  finalWorldview : Json
  checkOutput : Json

/-- `WorldviewGenerator.run` data flow (`worldview_generator.py:324-339`):
save/load meta, draft, review, `final_expansion = review.get(...)`, then
`assemble_final` builds `{**meta, "expansion": expansion}` locally, round-
trips it through the client (result bound to `_`), and returns the local
object. -/
def run (meta : List (String × Json)) (o : Oracle) : RunResult :=
  let draftExpansion := o.draftResp
  let finalExpansion := Json.getD o.reviewResp "revised_expansion" draftExpansion
  let finalObj := Json.obj (Json.setKey meta "expansion" finalExpansion)
  { draftExpansion := draftExpansion
    finalWorldview := finalObj
    checkOutput := o.finalCheckResp finalObj }

/-- The four client calls of one run, in order: `save_meta`
(`META_SCHEMA`, temp 0.0), `generate_expansion` (`EXPANSION_SCHEMA`,
temp 0.95), `review_and_revise` (review schema, temp 0.4),
`assemble_final` (`FINAL_SCHEMA`, temp 0.0). -/
def calls : List LLMCall :=
  [⟨"STRONG_TEXT_MODEL", "WorldviewMeta", 0.0⟩,
   ⟨"STRONG_TEXT_MODEL", "WorldviewExpansion", 0.95⟩,
   ⟨"STRONG_TEXT_MODEL", "WorldviewReview", 0.4⟩,
   ⟨"WEAK_TEXT_MODEL", "FinalWorldview", 0.0⟩]

/-- The step-1 draft call (`generate_expansion`). -/
def draftCall : LLMCall := ⟨"STRONG_TEXT_MODEL", "WorldviewExpansion", 0.95⟩

/-- The step-4 validation call (`assemble_final`). -/
def validateCall : LLMCall := ⟨"WEAK_TEXT_MODEL", "FinalWorldview", 0.0⟩

end WorldviewGenerator

/-! ## CharacterGenerator (`character_generator.py`) -/

namespace CharacterGenerator

/-- Client responses for one `CharacterGenerator.run`: the draft (an object,
per the `CharacterSet` schema — `generate_characters` assigns
`draft["counts"]`), the review object, and the `final_schema_check`
response as a function of the JSON submitted. -/
structure Oracle where
  draftResp : List (String × Json)
  reviewResp : List (String × Json)
  validateResp : Json → Json

/-- `generate_characters` (`character_generator.py:324-337`): take the draft
response and, if it lacks `"counts"`, append
`{"primary": num_primary, "secondary": num_secondary}`. -/
def generateCharacters (o : Oracle) (numPrimary numSecondary : Int) : List (String × Json) :=
  if (Json.lookup o.draftResp "counts").isSome then o.draftResp
  else o.draftResp ++
    [("counts", Json.obj [("primary", Json.num numPrimary), ("secondary", Json.num numSecondary)])]

/-- `final_characters = review.get("revised_characters", draft_characters)`. -/
def selectedCharacters (o : Oracle) (numPrimary numSecondary : Int) : Json :=
  Json.getD o.reviewResp "revised_characters" (Json.obj (generateCharacters o numPrimary numSecondary))

/-- Result dict fields of `CharacterGenerator.run` used by the claims. -/
structure RunResult where
  draftCharacters : Json
  finalCharacters : Json

/-- `CharacterGenerator.run` data flow (`character_generator.py:363-383`):
draft (with counts patch), review, accept `revised_characters` or fall back
to the draft, then return the `final_schema_check` output. -/
def run (numPrimary numSecondary : Int) (o : Oracle) : RunResult :=
  let draft := generateCharacters o numPrimary numSecondary
  let selected := Json.getD o.reviewResp "revised_characters" (Json.obj draft)
  { draftCharacters := Json.obj draft
    finalCharacters := o.validateResp selected }

/-- The three client calls of one run, in order. -/
def calls : List LLMCall :=
  [⟨"STRONG_TEXT_MODEL", "CharacterSet", 0.95⟩,
   ⟨"STRONG_TEXT_MODEL", "CharacterReview", 0.4⟩,
   ⟨"WEAK_TEXT_MODEL", "CharacterSet", 0.0⟩]

/-- The step-1 draft call (`generate_characters`). -/
def draftCall : LLMCall := ⟨"STRONG_TEXT_MODEL", "CharacterSet", 0.95⟩

/-- The step-4 validation call (`final_schema_check`). -/
def validateCall : LLMCall := ⟨"WEAK_TEXT_MODEL", "CharacterSet", 0.0⟩

end CharacterGenerator

/-! ## ConflictGenerator (`conflict_generator.py`) -/

namespace ConflictGenerator

/-- Client responses for one `ConflictGenerator.run`: the draft network, the
review object (per the `ConflictReview` schema), and the
`final_schema_check` response as a function of the JSON submitted. -/
structure Oracle where
  draftResp : Json
  reviewResp : List (String × Json)
  validateResp : Json → Json

/-- `final_conflicts = review.get("revised_conflicts", draft)`
(`conflict_generator.py:344`). -/
def selectedConflicts (o : Oracle) : Json :=
  Json.getD o.reviewResp "revised_conflicts" o.draftResp

/-- Result dict fields of `ConflictGenerator.run` used by the claims. -/
structure RunResult where
  draftConflicts : Json
  finalConflicts : Json

/-- `ConflictGenerator.run` data flow (`conflict_generator.py:333-355`):
draft, review, accept `revised_conflicts` or fall back to the draft, then
return the `final_schema_check` output as `final_conflicts`. -/
def run (o : Oracle) : RunResult :=
  let draft := o.draftResp
  let selected := Json.getD o.reviewResp "revised_conflicts" draft
  { draftConflicts := draft
    finalConflicts := o.validateResp selected }

/-- The three client calls of one run, in order. -/
def calls : List LLMCall :=
  [⟨"STRONG_TEXT_MODEL", "ConflictNetwork", 0.95⟩,
   ⟨"STRONG_TEXT_MODEL", "ConflictReview", 0.4⟩,
   ⟨"WEAK_TEXT_MODEL", "ConflictNetwork", 0.0⟩]

/-- The step-1 draft call (`generate_draft`). -/
def draftCall : LLMCall := ⟨"STRONG_TEXT_MODEL", "ConflictNetwork", 0.95⟩

/-- The step-4 validation call (`final_schema_check`). -/
def validateCall : LLMCall := ⟨"WEAK_TEXT_MODEL", "ConflictNetwork", 0.0⟩

/-- `_extract_actor_index`'s per-entry record (`conflict_generator.py:271-275`):
`{"id": c.get("id", ""), "display_name": c.get("display_name", ""),
"role": c.get("role", "")}`; `none` models the `AttributeError` raised when
an entry is not a dict. -/
def actorRecord (c : Json) : Option Json :=
  match c with
  | .obj fs =>
      some (Json.obj
        [("id", Json.getD fs "id" (Json.str "")),
         ("display_name", Json.getD fs "display_name" (Json.str "")),
         ("role", Json.getD fs "role" (Json.str ""))])
  | _ => none

/-- The `for c in char_list: actors.append({...})` loop of
`_extract_actor_index`: one record per entry, in order; `none` models the
`AttributeError` on a non-dict entry. -/
def actorIndexList : List Json → Option (List Json)
  | [] => some []
  | c :: cs =>
      match actorRecord c, actorIndexList cs with
      | some a, some rest => some (a :: rest)
      | _, _ => none

/-- `_extract_actor_index` (`conflict_generator.py:261-276`): unwrap
`self.characters.get("final_characters", self.characters)`, take
`payload.get("characters", [])`, and build one `{id, display_name, role}`
record per entry.  `none` models the run-time errors of the source on
non-dict payloads, non-list `characters` values, or non-dict entries. -/
def extractActorIndex (characters : List (String × Json)) : Option (List Json) :=
  match Json.getD characters "final_characters" (Json.obj characters) with
  | .obj payload =>
      match Json.getD payload "characters" (Json.arr []) with
      | .arr charList => actorIndexList charList
      | _ => none
  | _ => none

/-- Statement-side helper: the actor record of a dict entry, as a total
function (only ever applied to object entries in the theorems below). -/
def actorShape (c : Json) : Json :=
  match c with
  | .obj fs =>
      Json.obj
        [("id", Json.getD fs "id" (Json.str "")),
         ("display_name", Json.getD fs "display_name" (Json.str "")),
         ("role", Json.getD fs "role" (Json.str ""))]
  | _ => Json.null

end ConflictGenerator

/-! ## Artifact unwrapping (`main.py`, consumers) -/

/-- The consumer-side unwrapping expression
`payload.get("final_<name>", payload)` (`main.py:62,86,103`,
`conflict_generator.py:268`).  `key` is the full `"final_<name>"` key. -/
def unwrapFinal (key : String) (payload : Json) : Option Json :=
  payload.pyGet key payload

/-! ## Audit logging (`llm_base.py`, `request_logger.py`) -/

namespace LLMBase

/-- Observable logging behaviour of one client call: how many times
`log_request_response` was invoked and how many log files were written. -/
structure LogOutcome where
  attempts : Nat
  written : Nat
deriving DecidableEq, Repr

/-- `LLMBase.call_structured_json` (`llm_base.py:25-85`), abstracting the
client round-trip into its outcome `clientResult` (`.ok` = parsed response,
`.error` = raised exception) and the logger's own behaviour into
`loggerRaises`.  On client error: attempt to log the error entry, swallow
any logger exception, re-raise the client error.  On success: attempt to
log the request/response entry, swallow any logger exception, return the
parsed output. -/
def callStructuredJson (clientResult : Except String Json) (loggerRaises : Bool) :
    Except String Json × LogOutcome :=
  match clientResult with
  | .error e => (.error e, ⟨1, if loggerRaises then 0 else 1⟩)
  | .ok v => (.ok v, ⟨1, if loggerRaises then 0 else 1⟩)

end LLMBase

namespace ConflictGenerator

/-- `ConflictGenerator._call_structured_json`
(`conflict_generator.py:234-258`): a direct client round-trip with no
`log_request_response` call anywhere (the generator does not import
`request_logger`).  Same shape for `CharacterGenerator._call_structured_json`
and `WorldviewGenerator.call_structured_json`. -/
def clientCall (clientResult : Except String Json) :
    Except String Json × LLMBase.LogOutcome :=
  (clientResult, ⟨0, 0⟩)

end ConflictGenerator

/-! ## Chapter-Bootstrap sub-pipeline (`pipelines/chapter_bootstrap.py`) -/

namespace ChapterBootstrap

/-- Presence/content of the per-chapter runtime files
(`runtime/chapter_{n}/...`). -/
structure ChapterStore where
  directorDecision : Option Json
  memoryCards : Option Json
  chapterOutline : Option Json
  index : Option Json
deriving Repr

/-- A fresh chapter runtime directory (no artifacts written yet). -/
def emptyChapterStore : ChapterStore := ⟨none, none, none, none⟩

/-- `_load_prev_summary` (`chapter_bootstrap.py:39-41`): the previous
chapter's `summary.txt` content if the file exists, else `""`. -/
def loadPrevSummary (file : Option String) : String := file.getD ""

/-- `prev_summary` as computed in `run` (`chapter_bootstrap.py:44`):
`self._load_prev_summary() if self.chapter_index > 1 else ""`. -/
def prevSummaryFor (chapterIndex : Nat) (file : Option String) : String :=
  if chapterIndex > 1 then loadPrevSummary file else ""

/-- The exception message of the agent construction. -/
def seedTypeError : String := "TypeError"

/-- `DirectorAgent(self.env_path, seed=self.seed)` (`chapter_bootstrap.py:47`;
likewise `LoreAssistant` at line 60 and `OutlinePlanner` at line 73): none
of these agent classes defines an `__init__`, so the call reaches the
inherited `LLMBase.__init__` (`llm_base.py:13`), which accepts only
`env_path`.  The `seed` keyword argument therefore raises `TypeError`
unconditionally — before any Generation Client call and before any
artifact write. -/
def agentConstruction : Except String Unit := .error seedTypeError

/-- `ChapterBootstrapPipeline.run` write behaviour
(`chapter_bootstrap.py:43-93`), with the three agent calls abstracted into
their outcomes (`d` = DirectorAgent, `l` = LoreAssistant,
`p` = OutlinePlanner).  Line 47 constructs the DirectorAgent before its
step runs, and that construction (`agentConstruction`) raises `TypeError`,
so every run of the pipeline fails there, writing nothing; the remaining
branches transcribe the write-each-step flow of lines 48-93 — each step's
artifact written to disk immediately after that step returns, an exception
leaving the files written so far — which the constructor error makes
unreachable.  Returns the run outcome (`.ok` = the index dict) and the
chapter store afterwards. -/
def runFS (st0 : ChapterStore) (d l p : Except String Json) :
    Except String Json × ChapterStore :=
  match agentConstruction with
  | .error e => (.error e, st0)
  | .ok _ =>
    match d with
    | .error e => (.error e, st0)
    | .ok dv =>
      match l with
      | .error e => (.error e, { st0 with directorDecision := some dv })
      | .ok lv =>
        match p with
        | .error e =>
            (.error e, { st0 with directorDecision := some dv, memoryCards := some lv })
        | .ok pv =>
            let index := Json.obj [("director_decision", dv), ("memory_cards", lv),
                                   ("chapter_outline", pv)]
            (.ok index, ⟨some dv, some lv, some pv, some index⟩)

/-- Number of Generation Client calls the pipeline issues for the given
agent outcomes: the `TypeError` at the DirectorAgent construction
(`agentConstruction`) precedes every client call, so a run issues none;
the dead branch transcribes the counting the write-each-step flow would
have (one call per step reached). -/
def clientCalls (d l _p : Except String Json) : Nat :=
  match agentConstruction with
  | .error _ => 0
  | .ok _ =>
    match d with
    | .error _ => 1
    | .ok _ =>
      match l with
      | .error _ => 2
      | .ok _ => 3

end ChapterBootstrap

/-! ## Orchestrator (`main.py`) -/

namespace Orchestrator

/-- The task's backing store (`output/{task_name}/`): the three stage
artifact files plus the per-chapter runtime files. -/
structure Store where
  worldview : Option Json
  characters : Option Json
  conflicts : Option Json
  chapter : ChapterBootstrap.ChapterStore
deriving Repr

/-- Generation Client calls issued per stage during one `main.py` run. -/
structure StageCalls where
  worldview : Nat
  characters : Nat
  conflicts : Nat
  chapter : Nat
deriving DecidableEq, Repr

/-- `check_and_continue` (`main.py:10-15`): `True` (run the stage) iff the
artifact file does not exist. -/
def checkAndContinue (artifact : Option Json) : Bool := artifact.isNone

/-- One generator stage of `main.py` (worldview/characters/conflicts): if
the artifact file exists, skip generation (0 client calls) and load it;
otherwise run the generator and write the artifact only after `run`
returns.  `gen` is the run outcome and `callsIssued` the number of client
calls that run actually issued before returning or raising (at most the
stage's `calls.length`, fewer when an early call raised); on error the
exception propagates and nothing is written. -/
def stage (artifact : Option Json) (gen : Except String Json) (callsIssued : Nat) :
    Except String Json × Option Json × Nat :=
  match artifact with
  | some v => (.ok v, some v, 0)
  | none =>
    match gen with
    | .error e => (.error e, none, callsIssued)
    | .ok v => (.ok v, some v, callsIssued)

/-- `main.py` `__main__` sequencing: Worldview → Characters → Conflicts,
each guarded by `check_and_continue`, then the Chapter-Bootstrap pipeline
invoked unconditionally (no existence check, `main.py:105-117`).  `wvGen`,
`chGen`, `cfGen` are the generator run outcomes with the client calls each
issued (`wvCalls`, `chCalls`, `cfCalls`); `d`, `l`, `p` the chapter agent
outcomes.  Returns the overall outcome, the store afterwards, and the
client calls per stage. -/
def mainRun (st : Store) (wvGen chGen cfGen : Except String Json)
    (wvCalls chCalls cfCalls : Nat) (d l p : Except String Json) :
    Except String Unit × Store × StageCalls :=
  match stage st.worldview wvGen wvCalls with
  | (.error e, wv, wvIssued) =>
      (.error e, { st with worldview := wv }, ⟨wvIssued, 0, 0, 0⟩)
  | (.ok _, wv, wvIssued) =>
    match stage st.characters chGen chCalls with
    | (.error e, ch, chIssued) =>
        (.error e, { st with worldview := wv, characters := ch }, ⟨wvIssued, chIssued, 0, 0⟩)
    | (.ok _, ch, chIssued) =>
      match stage st.conflicts cfGen cfCalls with
      | (.error e, cf, cfIssued) =>
          (.error e, { st with worldview := wv, characters := ch, conflicts := cf },
           ⟨wvIssued, chIssued, cfIssued, 0⟩)
      | (.ok _, cf, cfIssued) =>
          let (outcome, chapterStore) := ChapterBootstrap.runFS st.chapter d l p
          let bsCalls := ChapterBootstrap.clientCalls d l p
          ((outcome.map fun _ => ()),
           { worldview := wv, characters := ch, conflicts := cf, chapter := chapterStore },
           ⟨wvIssued, chIssued, cfIssued, bsCalls⟩)

end Orchestrator

/-! ## DirectorAgent (`agents/director_agent.py`) -/

namespace DirectorAgent

/-- `DIRECTOR_DECISION_SCHEMA` (`director_agent.py:6-21`) as a JSON value. -/
def DIRECTOR_DECISION_SCHEMA : Json :=
  Json.obj
    [("name", Json.str "DirectorDecision"),
     ("schema", Json.obj
       [("type", Json.str "object"),
        ("additionalProperties", Json.bool false),
        ("properties", Json.obj
          [("writing_style", Json.obj [("type", Json.str "string")]),
           ("focalization", Json.obj [("type", Json.str "string")]),
           ("tone_curve", Json.obj [("type", Json.str "string")]),
           ("info_budget", Json.obj [("type", Json.str "integer"), ("minimum", Json.num 1)]),
           ("conflict_focus", Json.obj [("type", Json.str "string")]),
           ("notes", Json.obj
             [("type", Json.str "array"),
              ("items", Json.obj [("type", Json.str "string")])])]),
        ("required", Json.arr
          [Json.str "writing_style", Json.str "focalization", Json.str "tone_curve",
           Json.str "info_budget", Json.str "conflict_focus"])])]

/-- `USER_TEMPLATE_GENERIC` (`director_agent.py:32-41`) applied to its four
slots. -/
def USER_TEMPLATE_GENERIC (meta_json prev_summary worldview_json chars_conflicts : String) :
    String :=
  "\n## Meta（关键，必须遵循）\n" ++ meta_json ++
  "\n\n## 输入素材\n- 上一章摘要（可空）：\n" ++ prev_summary ++
  "\n\n- 世界观 Final（长文，按需参考）：\n" ++ worldview_json ++
  "\n\n- 角色与矛盾（长文，按需参考）：\n" ++ chars_conflicts ++
  "\n\n请基于以上，产出本章的导演决策。\n"

/-- `USER_TEMPLATE_CH1` (`director_agent.py:44-57`) applied to its three
slots — the chapter-1-only branch demanding the minimum-background
judgment, an `info_budget` recommendation, and 3-6 `notes`. -/
def USER_TEMPLATE_CH1 (meta_json worldview_json chars_conflicts : String) : String :=
  "\n## Meta（关键，必须遵循）\n" ++ meta_json ++
  "\n\n你正在为“第一章”做导演决策。要求：\n" ++
  "1) 全量读取世界观与角色信息，判断读者理解所需的最低背景，并将此转化为 info_budget 建议（不过载）。\n" ++
  "2) 写作手法需兼顾引子：允许 in media res，但必须设计最低背景可推断路径。\n" ++
  "3) 明确冲突入口（conflict_focus），保证人物能动性驱动场景。\n" ++
  "4) 给出 3-6 条 notes，说明第一章在读者侧的“背景建立策略”。\n" ++
  "\n## 世界观 Final：\n" ++ worldview_json ++
  "\n\n## 角色与矛盾总览：\n" ++ chars_conflicts ++ "\n"

/-- Prompt construction of `DirectorAgent.run` (`director_agent.py:59-81`):
dump meta/worldview/characters+conflicts, then pick `USER_TEMPLATE_CH1`
when `chapter_index == 1` (no summary slot) and `USER_TEMPLATE_GENERIC`
with `prev_summary=prev_chapter_summary or ""` otherwise. -/
def userPrompt (meta worldview characters conflicts : Json)
    (prevChapterSummary : String) (chapterIndex : Nat) : String :=
  let metaJson := meta.dumps
  let worldJson := worldview.dumps
  let charsConf := (Json.obj
    [("characters", Json.pyOr characters (Json.obj [])),
     ("conflicts", Json.pyOr conflicts (Json.obj []))]).dumps
  if chapterIndex = 1 then
    USER_TEMPLATE_CH1 metaJson worldJson charsConf
  else
    USER_TEMPLATE_GENERIC metaJson (pyOrStr prevChapterSummary "") worldJson charsConf

/-- `DirectorAgent.run` (`director_agent.py:82-89`): one structured client
call on the built prompt, constrained by `DIRECTOR_DECISION_SCHEMA` at
temperature 0.6. -/
def run (client : String → Json) (meta worldview characters conflicts : Json)
    (prevChapterSummary : String) (chapterIndex : Nat) : Json :=
  client (userPrompt meta worldview characters conflicts prevChapterSummary chapterIndex)

end DirectorAgent

/-! ## LoreAssistant (`agents/lore_assistant.py`) -/

namespace LoreAssistant

/-- State of the prior-chapter `update.json` file as seen by `json.load`:
absent, present but unparseable, or present with value `j`. -/
inductive UpdateFileState where
  | absent
  | invalid
  | valid (j : Json)
deriving Repr

/-- The `prev_update` value computed in `LoreAssistant.run`
(`lore_assistant.py:56-62`): `{}` when no path is given or the file does
not exist; the parsed value when it parses; the `_warn` marker when
`json.load` raises. -/
def prevUpdate (pathTruthy : Bool) (st : UpdateFileState) : Json :=
  if pathTruthy then
    match st with
    | .absent => Json.obj []
    | .invalid => Json.obj [("_warn", Json.str "failed_to_load_update_json")]
    | .valid j => j
  else Json.obj []

/-- `USER_TEMPLATE` (`lore_assistant.py:33-46`) applied to its five slots. -/
def USER_TEMPLATE (meta_json director_json worldview_json chars_conflicts prev_update : String) :
    String :=
  "\n## Meta（关键，必须遵循）\n" ++ meta_json ++
  "\n\n## 导演决策\n" ++ director_json ++
  "\n\n## 设定来源\n- 世界观：\n" ++ worldview_json ++
  "\n- 角色与矛盾：\n" ++ chars_conflicts ++
  "\n- 上一章更新（可空）：\n" ++ prev_update ++
  "\n\n请返回 MemoryCards（严格遵循 Schema）。\n"

/-- Prompt construction of `LoreAssistant.run` (`lore_assistant.py:51-69`). -/
def userPrompt (meta director worldview characters conflicts : Json)
    (pathTruthy : Bool) (st : UpdateFileState) : String :=
  USER_TEMPLATE meta.dumps director.dumps worldview.dumps
    (Json.obj [("characters", Json.pyOr characters (Json.obj [])),
               ("conflicts", Json.pyOr conflicts (Json.obj []))]).dumps
    (prevUpdate pathTruthy st).dumps

/-- `LoreAssistant.run` (`lore_assistant.py:48-77`): build the prompt
(tolerating every `update.json` state) and return the client's
`MemoryCards` response — total in the file state, no failure path of its
own. -/
def run (client : String → Json) (meta director worldview characters conflicts : Json)
    (pathTruthy : Bool) (st : UpdateFileState) : Json :=
  client (userPrompt meta director worldview characters conflicts pathTruthy st)

end LoreAssistant

/-! ## Conflict Network predicates (`CONFLICT_SCHEMA`, goal coverage) -/

namespace ConflictNetwork

/-- `true` iff the value is a JSON string. -/
def isString : Json → Bool
  | .str _ => true
  | _ => false

/-- Key `k` is present in `fs` with a string value. -/
def strField (fs : List (String × Json)) (k : String) : Bool :=
  match Json.lookup fs k with
  | some (.str _) => true
  | _ => false

/-- Key `k` is present with a string value drawn from `allowed`. -/
def enumField (fs : List (String × Json)) (k : String) (allowed : List String) : Bool :=
  match Json.lookup fs k with
  | some (.str s) => allowed.contains s
  | _ => false

/-- The `relation` enumeration of `CONFLICT_SCHEMA.links`
(`conflict_generator.py:157-160`). -/
def relationEnum : List String :=
  ["supports", "blocks", "competes", "depends", "enables", "mutual_exclusion"]

/-- The `tier` enumeration of `CONFLICT_SCHEMA.goals`
(`conflict_generator.py:130`). -/
def tierEnum : List String := ["short", "mid", "long"]

/-- An `actors` entry's required fields (`conflict_generator.py:110-119`). -/
def conformsActor (a : Json) : Bool :=
  match a with
  | .obj fs => strField fs "id" && strField fs "display_name" && strField fs "role"
  | _ => false

/-- A `goals` entry's required fields and `tier` enum
(`conflict_generator.py:124-146`). -/
def conformsGoal (g : Json) : Bool :=
  match g with
  | .obj fs =>
      strField fs "goal_id" && strField fs "owner_id" &&
      enumField fs "tier" tierEnum && strField fs "title" && strField fs "description"
  | _ => false

/-- A `links` entry's required fields and `relation` enum
(`conflict_generator.py:151-165`). -/
def conformsLink (l : Json) : Bool :=
  match l with
  | .obj fs =>
      strField fs "source_goal_id" && strField fs "target_goal_id" &&
      enumField fs "relation" relationEnum
  | _ => false

/-- A `tensions` entry's required fields (`conflict_generator.py:169-180`). -/
def conformsTension (t : Json) : Bool :=
  match t with
  | .obj fs =>
      strField fs "label" &&
      (match Json.lookup fs "involved_goal_ids" with
       | some (.arr xs) => xs.all isString
       | _ => false) &&
      strField fs "why_it_matters"
  | _ => false

/-- A `progression` entry's required field (`conflict_generator.py:183-194`). -/
def conformsProgression (p : Json) : Bool :=
  match p with
  | .obj fs => strField fs "phase"
  | _ => false

/-- Structural conformance to `CONFLICT_SCHEMA`
(`conflict_generator.py:101-204`): top-level object with no keys outside
the declared properties (`additionalProperties: false`), the five required
keys present, `actors` ≥ 1, `goals` ≥ 4, `links` ≥ 3,
`consistency_rules` ≥ 5 strings, each entry carrying its required typed
fields and enumerations.  (Optional per-entry properties are unconstrained
here, matching `additionalProperties: true` on the items; a value this
checker accepts with only required fields also conforms to the full
schema.) -/
def conformsSchema (n : Json) : Bool :=
  match n with
  | .obj fs =>
      fs.all (fun p =>
        ["actors", "goals", "links", "tensions", "progression", "consistency_rules"].contains p.1) &&
      (match Json.lookup fs "actors" with
       | some (.arr xs) => decide (1 ≤ xs.length) && xs.all conformsActor
       | _ => false) &&
      (match Json.lookup fs "goals" with
       | some (.arr xs) => decide (4 ≤ xs.length) && xs.all conformsGoal
       | _ => false) &&
      (match Json.lookup fs "links" with
       | some (.arr xs) => decide (3 ≤ xs.length) && xs.all conformsLink
       | _ => false) &&
      (match Json.lookup fs "tensions" with
       | some (.arr xs) => xs.all conformsTension
       | _ => false) &&
      (match Json.lookup fs "progression" with
       | some (.arr xs) => xs.all conformsProgression
       | some _ => false
       | none => true) &&
      (match Json.lookup fs "consistency_rules" with
       | some (.arr xs) => decide (5 ≤ xs.length) && xs.all isString
       | _ => false)
  | _ => false

/-- The entries of array-valued key `k` of network `n` (empty otherwise). -/
def entries (n : Json) (k : String) : List Json :=
  match n with
  | .obj fs =>
      match Json.lookup fs k with
      | some (.arr xs) => xs
      | _ => []
  | _ => []

/-- Key `k` is present in `fs` with the string value `v`. -/
def strFieldEq (fs : List (String × Json)) (k : String) (v : String) : Bool :=
  match Json.lookup fs k with
  | some (.str s) => s == v
  | _ => false

/-- `true` iff link `l` names the goal id `gid` as its source or target. -/
def linkTouches (gid : String) (l : Json) : Bool :=
  match l with
  | .obj fs =>
      strFieldEq fs "source_goal_id" gid || strFieldEq fs "target_goal_id" gid
  | _ => false

/-- Goal-coverage invariant (spec §3 (a), §8 "Goal coverage"): every goal's
`goal_id` occurs as `source_goal_id` or `target_goal_id` of at least one
link of the same network. -/
def goalCoverage (n : Json) : Bool :=
  (entries n "goals").all fun g =>
    match g with
    | .obj fs =>
        match Json.lookup fs "goal_id" with
        | some (.str gid) => (entries n "links").any (linkTouches gid)
        | _ => false
    | _ => false

end ConflictNetwork

/-- Path lookup through nested JSON objects (statement helper for reading
a schema constant). -/
def Json.getPath : Json → List String → Option Json
  | j, [] => some j
  | .obj fs, k :: ks =>
      match Json.lookup fs k with
      | some v => Json.getPath v ks
      | none => none
  | _, _ :: _ => none

/-- A conflict network with an isolated goal: four goals owned by the one
actor, three links touching only `G1`/`G2`/`G3` — `G4` occurs in no link.
It satisfies every constraint of `CONFLICT_SCHEMA` (required fields, enums,
`actors ≥ 1`, `goals ≥ 4`, `links ≥ 3`, `consistency_rules ≥ 5`). -/
def isolatedGoalNetwork : Json :=
  Json.obj
    [("actors", Json.arr
       [Json.obj [("id", Json.str "P1"), ("display_name", Json.str "林洵"),
                  ("role", Json.str "primary")]]),
     ("goals", Json.arr
       [Json.obj [("goal_id", Json.str "G1"), ("owner_id", Json.str "P1"),
                  ("tier", Json.str "short"), ("title", Json.str "t1"),
                  ("description", Json.str "d1")],
        Json.obj [("goal_id", Json.str "G2"), ("owner_id", Json.str "P1"),
                  ("tier", Json.str "mid"), ("title", Json.str "t2"),
                  ("description", Json.str "d2")],
        Json.obj [("goal_id", Json.str "G3"), ("owner_id", Json.str "P1"),
                  ("tier", Json.str "long"), ("title", Json.str "t3"),
                  ("description", Json.str "d3")],
        Json.obj [("goal_id", Json.str "G4"), ("owner_id", Json.str "P1"),
                  ("tier", Json.str "short"), ("title", Json.str "t4"),
                  ("description", Json.str "d4")]]),
     ("links", Json.arr
       [Json.obj [("source_goal_id", Json.str "G1"), ("target_goal_id", Json.str "G2"),
                  ("relation", Json.str "supports")],
        Json.obj [("source_goal_id", Json.str "G2"), ("target_goal_id", Json.str "G3"),
                  ("relation", Json.str "blocks")],
        Json.obj [("source_goal_id", Json.str "G3"), ("target_goal_id", Json.str "G1"),
                  ("relation", Json.str "depends")]]),
     ("tensions", Json.arr []),
     ("consistency_rules", Json.arr
       [Json.str "r1", Json.str "r2", Json.str "r3", Json.str "r4", Json.str "r5"])]

/-- `isolatedGoalNetwork` with a fourth link touching `G4`, so every goal
is covered. -/
def coveredGoalNetwork : Json :=
  Json.obj
    [("actors", Json.arr
       [Json.obj [("id", Json.str "P1"), ("display_name", Json.str "林洵"),
                  ("role", Json.str "primary")]]),
     ("goals", Json.arr
       [Json.obj [("goal_id", Json.str "G1"), ("owner_id", Json.str "P1"),
                  ("tier", Json.str "short"), ("title", Json.str "t1"),
                  ("description", Json.str "d1")],
        Json.obj [("goal_id", Json.str "G2"), ("owner_id", Json.str "P1"),
                  ("tier", Json.str "mid"), ("title", Json.str "t2"),
                  ("description", Json.str "d2")],
        Json.obj [("goal_id", Json.str "G3"), ("owner_id", Json.str "P1"),
                  ("tier", Json.str "long"), ("title", Json.str "t3"),
                  ("description", Json.str "d3")],
        Json.obj [("goal_id", Json.str "G4"), ("owner_id", Json.str "P1"),
                  ("tier", Json.str "short"), ("title", Json.str "t4"),
                  ("description", Json.str "d4")]]),
     ("links", Json.arr
       [Json.obj [("source_goal_id", Json.str "G1"), ("target_goal_id", Json.str "G2"),
                  ("relation", Json.str "supports")],
        Json.obj [("source_goal_id", Json.str "G2"), ("target_goal_id", Json.str "G3"),
                  ("relation", Json.str "blocks")],
        Json.obj [("source_goal_id", Json.str "G4"), ("target_goal_id", Json.str "G1"),
                  ("relation", Json.str "depends")]]),
     ("tensions", Json.arr []),
     ("consistency_rules", Json.arr
       [Json.str "r1", Json.str "r2", Json.str "r3", Json.str "r4", Json.str "r5"])]

/-- A client behaviour for `ConflictGenerator.run` whose review omits
`revised_conflicts` and whose step-4 validation echoes its input, so that
the run's final artifact is the isolated-goal draft. -/
def isolatedDraftOracle : ConflictGenerator.Oracle :=
  ⟨isolatedGoalNetwork, [("issues", Json.arr []), ("improvements", Json.arr [])],
   fun x => x⟩

/-- A client behaviour whose step-4 validation returns the fully covered
network. -/
def coveredDraftOracle : ConflictGenerator.Oracle :=
  ⟨coveredGoalNetwork, [("issues", Json.arr []), ("improvements", Json.arr [])],
   fun x => x⟩

/-- A worldview-run client behaviour with an empty review (no
`revised_expansion`) and an echoing final check. -/
def echoWorldviewOracle : WorldviewGenerator.Oracle :=
  ⟨Json.null, Json.str "expansion-draft",
   [("issues", Json.arr []), ("improvements", Json.arr [])], fun x => x⟩

/-- A character-run client behaviour with an empty review (no
`revised_characters`) and an echoing final check. -/
def echoCharacterOracle : CharacterGenerator.Oracle :=
  ⟨[("characters", Json.arr [])],
   [("issues", Json.arr []), ("improvements", Json.arr [])], fun x => x⟩

/-- A worldview-run client behaviour whose `assemble_final` check call
answers `null` — visibly different from the assembled artifact. -/
def nullCheckWorldviewOracle : WorldviewGenerator.Oracle :=
  ⟨Json.null, Json.str "expansion-draft",
   [("issues", Json.arr []), ("improvements", Json.arr [])], fun _ => Json.null⟩

/-- A meta dict for the worldview examples. -/
def exampleMeta : List (String × Json) := [("genre_tone", Json.str "悬疑")]

/-- A backing store in which every stage artifact — including all chapter
runtime files — already exists. -/
def fullStore : Orchestrator.Store :=
  { worldview := some (Json.obj [("final_worldview", Json.obj [])])
    characters := some (Json.obj [("final_characters", Json.obj [])])
    conflicts := some (Json.obj [("final_conflicts", Json.obj [])])
    chapter :=
      { directorDecision := some (Json.obj [])
        memoryCards := some (Json.obj [])
        chapterOutline := some (Json.obj [])
        index := some (Json.obj []) } }

/-! ## Claim theorems -/

/-- A raw artifact value that itself contains a `final_<name>` key: the
shape that breaks raw-form unwrapping (e.g. a full `run()` result dict
persisted without selecting a sub-field). -/
def clashingValue : Json := Json.obj [("final_worldview", Json.num 0)]

/-- **C4** (counterexample): with `V = {"final_worldview": 0}`, the wrapped
form `{"final_worldview": V}` unwraps to `V`, but the raw form unwraps to
`0`, not `V`: `payload.get("final_<name>", payload)` does not yield `V` in
both cases for every `V`. -/
theorem c4_unwrap_counterexample :
    unwrapFinal "final_worldview" (Json.obj [("final_worldview", clashingValue)]) =
      some clashingValue ∧
    unwrapFinal "final_worldview" clashingValue = some (Json.num 0) ∧
    Json.num 0 ≠ clashingValue := by
  refine ⟨rfl, rfl, fun h => ?_⟩
  exact Json.noConfusion h

/-- **C4** (amended): unwrapping yields the wrapped value `V` whenever the
payload is an object binding `final_<name>` to `V`; for a raw object
payload it yields the payload itself exactly when the payload does not
contain the `final_<name>` key. -/
theorem c4_unwrap_amended (key : String) :
    (∀ fs V, Json.lookup fs key = some V → unwrapFinal key (Json.obj fs) = some V) ∧
    (∀ fs, Json.lookup fs key = none → unwrapFinal key (Json.obj fs) = some (Json.obj fs)) := by
  constructor
  · intro fs V h
    simp [unwrapFinal, Json.pyGet, Json.getD, h]
  · intro fs h
    simp [unwrapFinal, Json.pyGet, Json.getD, h]

/-- **C4** (witness for the amended theorem): both unwrapping cases at a
concrete artifact value. -/
theorem c4_unwrap_amended_witness :
    unwrapFinal "final_worldview" (Json.obj [("final_worldview", Json.str "w")]) =
      some (Json.str "w") ∧
    unwrapFinal "final_worldview" (Json.obj [("genre_tone", Json.str "悬疑")]) =
      some (Json.obj [("genre_tone", Json.str "悬疑")]) :=
  ⟨(c4_unwrap_amended "final_worldview").1 _ _ rfl,
   (c4_unwrap_amended "final_worldview").2 _ rfl⟩

/-- **C5**: the Memory-Card step's `update.json` load never raises — a
missing file (or no path) contributes `{}`, a parse failure contributes
`{"_warn": "failed_to_load_update_json"}`, a parseable file contributes its
value — and for every file state the step returns the client's MemoryCards
response (the embedded `run` is total in the file state, with no failure
path of its own). -/
theorem c5_memory_cards_update_tolerance (client : String → Json)
    (meta director worldview characters conflicts j : Json)
    (st : LoreAssistant.UpdateFileState) :
    LoreAssistant.prevUpdate true .absent = Json.obj [] ∧
    LoreAssistant.prevUpdate true .invalid =
      Json.obj [("_warn", Json.str "failed_to_load_update_json")] ∧
    LoreAssistant.prevUpdate true (.valid j) = j ∧
    LoreAssistant.prevUpdate false st = Json.obj [] ∧
    LoreAssistant.run client meta director worldview characters conflicts true st =
      client (LoreAssistant.userPrompt meta director worldview characters conflicts true st) := by
  exact ⟨rfl, rfl, rfl, rfl, rfl⟩

/-- **C8** (counterexample): the ConflictGenerator's own
`_call_structured_json` performs no audit-log write at all — a successful
Generation Client call through it leaves zero log attempts, refuting
"every Generation Client call mirrors its request and its response to the
audit log". -/
theorem c8_logging_counterexample :
    (ConflictGenerator.clientCall (.ok Json.null)).1 = .ok Json.null ∧
    (ConflictGenerator.clientCall (.ok Json.null)).2.attempts = 0 :=
  ⟨rfl, rfl⟩

/-- **C8** (amended): calls made through `LLMBase.call_structured_json`
(the chapter agents) always attempt exactly one audit-log write — the
request with its response, or the request with its error — and a logger
failure is swallowed: the returned value (or the re-raised client
exception) is identical whether or not the logger raises.  The three
generators' own `_call_structured_json` helpers make no log attempt. -/
theorem c8_logging_amended (r : Except String Json) (loggerRaises : Bool) :
    (LLMBase.callStructuredJson r loggerRaises).1 = r ∧
    (LLMBase.callStructuredJson r loggerRaises).2.attempts = 1 ∧
    (LLMBase.callStructuredJson r true).1 = (LLMBase.callStructuredJson r false).1 ∧
    (ConflictGenerator.clientCall r).1 = r ∧
    (ConflictGenerator.clientCall r).2.attempts = 0 := by
  cases r <;> cases loggerRaises <;> exact ⟨rfl, rfl, rfl, rfl, rfl⟩

/-- **C9**: for the Worldview/Characters/Conflicts stages the artifact is
written only after a successful `run`, so a generation error propagates
with the artifact still absent and `check_and_continue` makes the next
orchestrator run execute exactly that stage again.  The Chapter-Bootstrap
stage's generation cannot raise a service error at all: every run of
`ChapterBootstrapPipeline.run` raises `TypeError` at the
`DirectorAgent(..., seed=...)` construction (`chapter_bootstrap.py:47`,
`llm_base.py:13`), before any Generation Client call and before any write,
leaving that stage's persisted state unchanged on every invocation — so no
failure of the stage ever leaves an artifact file behind. -/
theorem c9_failed_stage_leaves_no_artifact (e : String) (k : Nat)
    (st0 : ChapterBootstrap.ChapterStore) (d l p : Except String Json) :
    Orchestrator.stage none (.error e) k = (.error e, none, k) ∧
    Orchestrator.checkAndContinue none = true ∧
    ChapterBootstrap.runFS st0 d l p = (.error ChapterBootstrap.seedTypeError, st0) ∧
    ChapterBootstrap.clientCalls d l p = 0 :=
  ⟨rfl, rfl, rfl, rfl⟩

/-- Helper for C10: on a list of dict entries, the actor-index loop
succeeds and returns exactly one `actorShape` record per entry, in order. -/
theorem actorIndexList_of_objs (cs : List Json)
    (h : ∀ c ∈ cs, ∃ fs, c = Json.obj fs) :
    ConflictGenerator.actorIndexList cs = some (cs.map ConflictGenerator.actorShape) := by
  induction cs with
  | nil => rfl
  | cons c cs ih =>
      obtain ⟨fs, rfl⟩ := h c (List.mem_cons_self c cs)
      have ih' := ih (fun c hc => h c (List.mem_cons_of_mem _ hc))
      simp [ConflictGenerator.actorIndexList, ConflictGenerator.actorRecord,
            ConflictGenerator.actorShape, ih']

/-- **C10**: `_extract_actor_index` unwraps the optional
`final_characters` layer; whenever every entry of the payload's
`characters` list is a dict, it returns exactly one
`{id, display_name, role}` record per entry, in the same order, each field
defaulting to `""` when missing; and a payload without a `characters` key
yields the empty actor list (in both the wrapped and the raw shape). -/
theorem c10_extract_actor_index (chars inner : List (String × Json)) (cs : List Json)
    (hobjs : ∀ c ∈ cs, ∃ fs, c = Json.obj fs) :
    (Json.lookup chars "final_characters" = some (Json.obj inner) →
      Json.lookup inner "characters" = some (Json.arr cs) →
      ConflictGenerator.extractActorIndex chars =
        some (cs.map ConflictGenerator.actorShape)) ∧
    (Json.lookup chars "final_characters" = none →
      Json.lookup chars "characters" = some (Json.arr cs) →
      ConflictGenerator.extractActorIndex chars =
        some (cs.map ConflictGenerator.actorShape)) ∧
    (Json.lookup chars "final_characters" = some (Json.obj inner) →
      Json.lookup inner "characters" = none →
      ConflictGenerator.extractActorIndex chars = some []) ∧
    (Json.lookup chars "final_characters" = none →
      Json.lookup chars "characters" = none →
      ConflictGenerator.extractActorIndex chars = some []) ∧
    (∀ fs, ConflictGenerator.actorShape (Json.obj fs) =
      Json.obj
        [("id", Json.getD fs "id" (Json.str "")),
         ("display_name", Json.getD fs "display_name" (Json.str "")),
         ("role", Json.getD fs "role" (Json.str ""))]) ∧
    (cs.map ConflictGenerator.actorShape).length = cs.length := by
  refine ⟨?_, ?_, ?_, ?_, fun fs => rfl, by simp⟩
  · intro h1 h2
    simp [ConflictGenerator.extractActorIndex, Json.getD, h1, h2,
          actorIndexList_of_objs cs hobjs]
  · intro h1 h2
    simp [ConflictGenerator.extractActorIndex, Json.getD, h1, h2,
          actorIndexList_of_objs cs hobjs]
  · intro h1 h2
    simp [ConflictGenerator.extractActorIndex, Json.getD, h1, h2,
          ConflictGenerator.actorIndexList]
  · intro h1 h2
    simp [ConflictGenerator.extractActorIndex, Json.getD, h1, h2,
          ConflictGenerator.actorIndexList]

/-- **C10** (witness): a two-entry character set — one entry missing its
`role`, exercised in both the wrapped and the raw shape. -/
theorem c10_extract_actor_index_witness :
    ConflictGenerator.extractActorIndex
        [("final_characters", Json.obj
          [("characters", Json.arr
            [Json.obj [("id", Json.str "P1"), ("display_name", Json.str "林洵"),
                       ("role", Json.str "primary")],
             Json.obj [("id", Json.str "S1"), ("display_name", Json.str "莱尔")]])])] =
      some
        [Json.obj [("id", Json.str "P1"), ("display_name", Json.str "林洵"),
                   ("role", Json.str "primary")],
         Json.obj [("id", Json.str "S1"), ("display_name", Json.str "莱尔"),
                   ("role", Json.str "")]] := by
  have h := (c10_extract_actor_index
    [("final_characters", Json.obj
      [("characters", Json.arr
        [Json.obj [("id", Json.str "P1"), ("display_name", Json.str "林洵"),
                   ("role", Json.str "primary")],
         Json.obj [("id", Json.str "S1"), ("display_name", Json.str "莱尔")]])])]
    [("characters", Json.arr
      [Json.obj [("id", Json.str "P1"), ("display_name", Json.str "林洵"),
                 ("role", Json.str "primary")],
       Json.obj [("id", Json.str "S1"), ("display_name", Json.str "莱尔")]])]
    [Json.obj [("id", Json.str "P1"), ("display_name", Json.str "林洵"),
               ("role", Json.str "primary")],
     Json.obj [("id", Json.str "S1"), ("display_name", Json.str "莱尔")]]
    (by intro c hc
        simp only [List.mem_cons, List.mem_singleton] at hc
        rcases hc with rfl | rfl | h
        · exact ⟨_, rfl⟩
        · exact ⟨_, rfl⟩
        · cases h)).1 rfl rfl
  simpa using h

/-- **C7**: the Director Decision prompt for chapter 1 is built from the
distinct `USER_TEMPLATE_CH1` (the branch demanding the minimum-background
judgment, an `info_budget` recommendation — schema minimum 1 — and 3-6
notes) and consumes no previous-chapter summary (the prompt is the same
for every summary string, and the pipeline passes `""`); for every chapter
index `m + 2 > 1` the prompt is the generic template embedding the
previous chapter's `summary.txt` content when that file exists and `""`
otherwise. -/
theorem c7_director_prompt_branches (meta worldview characters conflicts : Json)
    (s t : String) (file : Option String) (m : Nat) :
    DirectorAgent.userPrompt meta worldview characters conflicts s 1 =
      DirectorAgent.USER_TEMPLATE_CH1 meta.dumps worldview.dumps
        (Json.obj [("characters", Json.pyOr characters (Json.obj [])),
                   ("conflicts", Json.pyOr conflicts (Json.obj []))]).dumps ∧
    ChapterBootstrap.prevSummaryFor 1 file = "" ∧
    DirectorAgent.userPrompt meta worldview characters conflicts
        (ChapterBootstrap.prevSummaryFor (m + 2) file) (m + 2) =
      DirectorAgent.USER_TEMPLATE_GENERIC meta.dumps
        (ChapterBootstrap.loadPrevSummary file) worldview.dumps
        (Json.obj [("characters", Json.pyOr characters (Json.obj [])),
                   ("conflicts", Json.pyOr conflicts (Json.obj []))]).dumps ∧
    ChapterBootstrap.loadPrevSummary (some t) = t ∧
    ChapterBootstrap.loadPrevSummary none = "" ∧
    DirectorAgent.DIRECTOR_DECISION_SCHEMA.getPath
        ["schema", "properties", "info_budget", "minimum"] = some (Json.num 1) := by
  refine ⟨rfl, rfl, ?_, rfl, rfl, rfl⟩
  have h2 : ChapterBootstrap.prevSummaryFor (m + 2) file =
      ChapterBootstrap.loadPrevSummary file := by
    simp [ChapterBootstrap.prevSummaryFor]
  have h1 : ¬ (m + 2 = 1) := by omega
  have h3 : pyOrStr (ChapterBootstrap.loadPrevSummary file) "" =
      ChapterBootstrap.loadPrevSummary file := by
    by_cases h : ChapterBootstrap.loadPrevSummary file = "" <;> simp [pyOrStr, h]
  simp [DirectorAgent.userPrompt, h1, h2, h3]

/-- **C2**: when a review's structured result omits the revised-artifact
field, each pipeline's accept step falls back to the pre-review draft, and
— given that the zero-temperature step-4 check call returns the submitted
JSON verbatim, as its prompt instructs (for the worldview pipeline not
even that is needed, since `assemble_final` discards the check output) —
the returned final artifact equals the pre-review draft bit-for-bit: the
conflict and character pipelines return the draft itself, the worldview
pipeline returns `{**meta, "expansion": draft}` with the draft expansion
embedded unchanged. -/
theorem c2_review_fallback (meta : List (String × Json))
    (wo : WorldviewGenerator.Oracle) (co : CharacterGenerator.Oracle)
    (fo : ConflictGenerator.Oracle) (numPrimary numSecondary : Int)
    (hw : Json.lookup wo.reviewResp "revised_expansion" = none)
    (hc : Json.lookup co.reviewResp "revised_characters" = none)
    (hf : Json.lookup fo.reviewResp "revised_conflicts" = none)
    (hcv : ∀ x, co.validateResp x = x)
    (hfv : ∀ x, fo.validateResp x = x) :
    (ConflictGenerator.run fo).finalConflicts = (ConflictGenerator.run fo).draftConflicts ∧
    (CharacterGenerator.run numPrimary numSecondary co).finalCharacters =
      (CharacterGenerator.run numPrimary numSecondary co).draftCharacters ∧
    (WorldviewGenerator.run meta wo).finalWorldview =
      Json.obj (Json.setKey meta "expansion" (WorldviewGenerator.run meta wo).draftExpansion) := by
  refine ⟨?_, ?_, ?_⟩
  · simp [ConflictGenerator.run, Json.getD, hf, hfv]
  · simp [CharacterGenerator.run, Json.getD, hc, hcv]
  · simp [WorldviewGenerator.run, Json.getD, hw]

/-- **C2** (witness): concrete empty-review, echoing-validation oracles for
the three pipelines. -/
theorem c2_review_fallback_witness :
    (ConflictGenerator.run isolatedDraftOracle).finalConflicts =
      (ConflictGenerator.run isolatedDraftOracle).draftConflicts ∧
    (CharacterGenerator.run 2 8 echoCharacterOracle).finalCharacters =
      (CharacterGenerator.run 2 8 echoCharacterOracle).draftCharacters ∧
    (WorldviewGenerator.run exampleMeta echoWorldviewOracle).finalWorldview =
      Json.obj (Json.setKey exampleMeta "expansion"
        (WorldviewGenerator.run exampleMeta echoWorldviewOracle).draftExpansion) :=
  c2_review_fallback exampleMeta echoWorldviewOracle echoCharacterOracle
    isolatedDraftOracle 2 8 rfl rfl rfl (fun _ => rfl) (fun _ => rfl)

/-- **C6** (counterexample): in the worldview pipeline the step-4 call is
constrained by `FINAL_SCHEMA` ("FinalWorldview"), not the step-1 draft
schema ("WorldviewExpansion"), and its output is discarded — with a check
call answering `null`, the returned artifact differs from the step-4
output, refuting the claim for the worldview pipeline. -/
theorem c6_final_validate_counterexample :
    WorldviewGenerator.validateCall.schemaName ≠ WorldviewGenerator.draftCall.schemaName ∧
    (WorldviewGenerator.run exampleMeta nullCheckWorldviewOracle).checkOutput = Json.null ∧
    (WorldviewGenerator.run exampleMeta nullCheckWorldviewOracle).finalWorldview ≠
      (WorldviewGenerator.run exampleMeta nullCheckWorldviewOracle).checkOutput := by
  refine ⟨by decide, rfl, fun h => ?_⟩
  rw [show (WorldviewGenerator.run exampleMeta nullCheckWorldviewOracle).checkOutput =
        Json.null from rfl] at h
  exact Json.noConfusion h

/-- **C6** (amended): for the character and conflict pipelines the claim
holds — the last client call of a run is the zero-temperature validation
constrained by the same schema as the step-1 draft, and the returned
artifact is exactly that call's output.  For the worldview pipeline the
zero-temperature check call uses the Final (meta + expansion) schema
instead of the step-1 Expansion schema, and the pipeline returns the
locally assembled `{**meta, "expansion": expansion}` regardless of the
check call's output. -/
theorem c6_final_validate_amended (numPrimary numSecondary : Int)
    (co : CharacterGenerator.Oracle) (fo : ConflictGenerator.Oracle)
    (meta : List (String × Json)) (wo : WorldviewGenerator.Oracle) (f : Json → Json) :
    ConflictGenerator.calls.getLast? = some ConflictGenerator.validateCall ∧
    ConflictGenerator.validateCall.temperature = 0 ∧
    ConflictGenerator.validateCall.schemaName = ConflictGenerator.draftCall.schemaName ∧
    (ConflictGenerator.run fo).finalConflicts =
      fo.validateResp (ConflictGenerator.selectedConflicts fo) ∧
    CharacterGenerator.calls.getLast? = some CharacterGenerator.validateCall ∧
    CharacterGenerator.validateCall.temperature = 0 ∧
    CharacterGenerator.validateCall.schemaName = CharacterGenerator.draftCall.schemaName ∧
    (CharacterGenerator.run numPrimary numSecondary co).finalCharacters =
      co.validateResp (CharacterGenerator.selectedCharacters co numPrimary numSecondary) ∧
    WorldviewGenerator.calls.getLast? = some WorldviewGenerator.validateCall ∧
    WorldviewGenerator.validateCall.temperature = 0 ∧
    WorldviewGenerator.validateCall.schemaName ≠ WorldviewGenerator.draftCall.schemaName ∧
    (WorldviewGenerator.run meta { wo with finalCheckResp := f }).finalWorldview =
      (WorldviewGenerator.run meta wo).finalWorldview ∧
    (WorldviewGenerator.run meta wo).finalWorldview =
      Json.obj (Json.setKey meta "expansion" (WorldviewGenerator.selectedExpansion wo)) := by
  exact ⟨rfl, by norm_num [ConflictGenerator.validateCall], rfl, rfl, rfl,
         by norm_num [CharacterGenerator.validateCall], rfl, rfl, rfl,
         by norm_num [WorldviewGenerator.validateCall], by decide, rfl, rfl⟩

/-- **C3** (counterexample): with every artifact — including all chapter
runtime files — already present in the backing store, a re-run skips the
worldview/characters/conflicts stages (0 client calls, artifacts loaded)
but still enters the Chapter-Bootstrap stage, which has no skip-if-exists
check: instead of skipping generation and loading the existing artifacts,
the stage raises `TypeError` at the `DirectorAgent(..., seed=...)`
construction and the whole orchestrator run aborts (a skipped stage would
have let the run finish with `.ok`). -/
theorem c3_idempotent_skip_counterexample :
    fullStore.chapter.directorDecision.isSome = true ∧
    (Orchestrator.mainRun fullStore (.ok Json.null) (.ok Json.null) (.ok Json.null)
        4 3 3 (.ok (Json.obj [])) (.ok (Json.obj [])) (.ok (Json.obj []))).1 =
      .error ChapterBootstrap.seedTypeError ∧
    (Orchestrator.mainRun fullStore (.ok Json.null) (.ok Json.null) (.ok Json.null)
        4 3 3 (.ok (Json.obj [])) (.ok (Json.obj [])) (.ok (Json.obj []))).2.2 =
      ⟨0, 0, 0, 0⟩ := by
  exact ⟨rfl, rfl, rfl⟩

/-- **C3** (amended): the skip-if-exists policy covers exactly the
Worldview, Characters and Conflicts stages — when those artifacts exist,
zero client calls are made for them and the store is left as it was.  The
Chapter-Bootstrap stage has no existence check and is invoked
unconditionally; as the code stands that invocation raises `TypeError` at
the agent construction before any Generation Client call, so a re-run with
every artifact present makes no chapter client call either, but instead of
skipping the stage and loading its artifacts it aborts the run, leaving
the chapter files untouched. -/
theorem c3_idempotent_skip_amended (st : Orchestrator.Store)
    (wvGen chGen cfGen : Except String Json) (wvCalls chCalls cfCalls : Nat)
    (d l p : Except String Json)
    (h1 : st.worldview.isSome) (h2 : st.characters.isSome) (h3 : st.conflicts.isSome) :
    (Orchestrator.mainRun st wvGen chGen cfGen wvCalls chCalls cfCalls d l p).2.2 =
      ⟨0, 0, 0, 0⟩ ∧
    (Orchestrator.mainRun st wvGen chGen cfGen wvCalls chCalls cfCalls d l p).1 =
      .error ChapterBootstrap.seedTypeError ∧
    (Orchestrator.mainRun st wvGen chGen cfGen wvCalls chCalls cfCalls d l p).2.1.chapter =
      st.chapter := by
  obtain ⟨wv, hwv⟩ := Option.isSome_iff_exists.mp h1
  obtain ⟨ch, hch⟩ := Option.isSome_iff_exists.mp h2
  obtain ⟨cf, hcf⟩ := Option.isSome_iff_exists.mp h3
  simp [Orchestrator.mainRun, Orchestrator.stage, hwv, hch, hcf,
        ChapterBootstrap.runFS, ChapterBootstrap.agentConstruction,
        ChapterBootstrap.clientCalls, Except.map]

/-- **C3** (witness for the amended theorem): the fully populated store. -/
theorem c3_idempotent_skip_amended_witness :
    (Orchestrator.mainRun fullStore (.error "e1") (.error "e2") (.error "e3")
        1 1 1 (.ok Json.null) (.error "e4") (.ok Json.null)).2.2 = ⟨0, 0, 0, 0⟩ ∧
    (Orchestrator.mainRun fullStore (.error "e1") (.error "e2") (.error "e3")
        1 1 1 (.ok Json.null) (.error "e4") (.ok Json.null)).1 =
      .error ChapterBootstrap.seedTypeError ∧
    (Orchestrator.mainRun fullStore (.error "e1") (.error "e2") (.error "e3")
        1 1 1 (.ok Json.null) (.error "e4") (.ok Json.null)).2.1.chapter =
      fullStore.chapter :=
  c3_idempotent_skip_amended fullStore (.error "e1") (.error "e2") (.error "e3")
    1 1 1 (.ok Json.null) (.error "e4") (.ok Json.null) rfl rfl rfl

/-- **C1** (counterexample): a client whose step-4 output is the
schema-conforming network `isolatedGoalNetwork` makes
`ConflictGenerator.run` return a final Conflict Network in which goal `G4`
appears in no link — the finalized artifact can contain an isolated goal,
so the invariant is not guaranteed by the code. -/
theorem c1_goal_coverage_counterexample :
    ConflictNetwork.conformsSchema
      (ConflictGenerator.run isolatedDraftOracle).finalConflicts = true ∧
    ConflictNetwork.goalCoverage
      (ConflictGenerator.run isolatedDraftOracle).finalConflicts = false := by
  exact ⟨rfl, rfl⟩

/-- **C1** (amended): the finalized network is exactly the step-4 client
output (`final_schema_check`'s response to the accepted revision-or-draft),
so goal coverage holds in the final artifact precisely when the client's
validated output satisfies it; the code itself performs no graph check. -/
theorem c1_goal_coverage_amended (o : ConflictGenerator.Oracle)
    (h : ConflictNetwork.goalCoverage
      (o.validateResp (ConflictGenerator.selectedConflicts o)) = true) :
    (ConflictGenerator.run o).finalConflicts =
      o.validateResp (ConflictGenerator.selectedConflicts o) ∧
    ConflictNetwork.goalCoverage (ConflictGenerator.run o).finalConflicts = true :=
  ⟨rfl, h⟩

/-- **C1** (witness for the amended theorem): a client whose validated
output is the fully covered network. -/
theorem c1_goal_coverage_amended_witness :
    (ConflictGenerator.run coveredDraftOracle).finalConflicts =
      coveredDraftOracle.validateResp
        (ConflictGenerator.selectedConflicts coveredDraftOracle) ∧
    ConflictNetwork.goalCoverage
      (ConflictGenerator.run coveredDraftOracle).finalConflicts = true :=
  c1_goal_coverage_amended coveredDraftOracle (by decide)
